import Mathlib

/-!
Verification development for the GULP adapter (`pyxtal/interface/gulp.py`).

The module drives the external GULP executable: it serializes a crystal
structure and run configuration into GULP's text input grammar (`GULP.write`),
parses GULP's text report (`GULP.read`), deletes transient files
(`GULP.clean`), and offers a multi-pass driver (`optimize`).

Text is embedded as `List Char`.  Python floats are embedded as `PFloat`
(an exact rational, `nan`, or a signed infinity); decimal-string parsing is
modelled exactly over the rationals.  Fallible Python code (indexing,
`float()` conversion, attribute access on `None`) is embedded in
`Except Unit`.  The external collaborators (the pyxtal `Lattice` object, the
GULP executable) are kept abstract: a lattice produced by
`Lattice.from_para` / `Lattice.from_matrix` is represented by a tagged value
holding exactly the arguments the source passes.
-/

deriving instance DecidableEq for Except

namespace Gulp

/-- Convert a string literal to the `List Char` representation used throughout. -/
def strL (s : String) : List Char := s.toList

/-- Python's `str.split()` whitespace class and the `\s` regex class. -/
def isPySpace (c : Char) : Bool :=
  c = ' ' || c = '\t' || c = '\n' || c = '\r' || c = '\x0b' || c = '\x0c'

/-- Decimal digit test. -/
def isDig (c : Char) : Bool := '0' ≤ c && c ≤ '9'

/-- Auxiliary accumulator for `pySplit`. -/
def pySplitAux : List Char → List Char → List (List Char)
  | [], acc => if acc = [] then [] else [acc.reverse]
  | c :: cs, acc =>
    if isPySpace c then
      (if acc = [] then pySplitAux cs [] else acc.reverse :: pySplitAux cs [])
    else pySplitAux cs (c :: acc)

/-- Python `str.split()` with no argument: split on whitespace runs, dropping
empty fields. -/
def pySplit (s : List Char) : List (List Char) := pySplitAux s []

/-- Boolean prefix test on character lists. -/
def startsWithL : List Char → List Char → Bool
  | [], _ => true
  | _ :: _, [] => false
  | p :: ps, c :: cs => p = c && startsWithL ps cs

/-- Python `line.find(sub) != -1`: substring containment. -/
def strContains (sub : List Char) : List Char → Bool
  | [] => startsWithL sub []
  | c :: cs => startsWithL sub (c :: cs) || strContains sub cs

/-- Drop an exact literal from the front, or fail. -/
def dropLit : List Char → List Char → Option (List Char)
  | [], s => some s
  | _ :: _, [] => none
  | p :: ps, c :: cs => if c = p then dropLit ps cs else none

/-- Python list indexing `l[i]` (raises `IndexError` when out of range). -/
def pyIdx {α : Type} (l : List α) (i : Nat) : Except Unit α :=
  match l.get? i with
  | some x => .ok x
  | none => .error ()

/-- Python `l[-1]` on the result of `split()` (raises when empty). -/
def pyLast {α : Type} (l : List α) : Except Unit α :=
  match l.getLast? with
  | some x => .ok x
  | none => .error ()

/-- A Python float value: an exact finite rational, a NaN, or a signed
infinity.  Decimal strings are parsed exactly into `ℚ`. -/
inductive PFloat where
  | fin (q : ℚ)
  | nan
  | inf (pos : Bool)
deriving DecidableEq, Repr

/-- Lower-case an ASCII letter (for the case-insensitive `inf` / `nan` forms
accepted by Python's `float()`). -/
def lowerC (c : Char) : Char :=
  if 'A' ≤ c && c ≤ 'Z' then Char.ofNat (c.toNat + 32) else c

/-- Numeric value of a digit string (most significant first). -/
def digitsToNat (ds : List Char) : Nat :=
  ds.foldl (fun a c => a * 10 + (c.toNat - 48)) 0

/-- Scaling a rational by a power of ten, written on the raw
numerator/denominator representation so that it evaluates by kernel
reduction (the library's `Rat.mul` and `Rat.inv` are `irreducible`). -/
def qMulPow10 (q : ℚ) (e : Int) : ℚ :=
  if 0 ≤ e then mkRat (q.num * (10 : Int) ^ e.toNat) q.den
  else mkRat q.num (q.den * 10 ^ e.natAbs)

/-- Parse the exponent part of a float literal: sign and a nonempty digit
run, which must consume the rest of the string. -/
def pyFloatExp (s : List Char) : Except Unit Int :=
  match s with
  | '+' :: r =>
    (if r ≠ [] ∧ r.all isDig then .ok (digitsToNat r : Int) else .error ())
  | '-' :: r =>
    (if r ≠ [] ∧ r.all isDig then .ok (-(digitsToNat r : Int)) else .error ())
  | r =>
    (if r ≠ [] ∧ r.all isDig then .ok (digitsToNat r : Int) else .error ())

/-- Parse the unsigned body of a float literal: digits, an optional dot with
further digits, and an optional exponent.  At least one mantissa digit is
required and no trailing characters are allowed, as in Python's `float()`.
The value of `IP.FP` is the digit string `IP ++ FP` read as an integer over
`10 ^ |FP|`, built with `mkRat` so that it evaluates by kernel reduction.
(Underscore digit separators, a CPython nicety GULP output never uses, are
not modelled.) -/
def pyFloatBody (s : List Char) : Except Unit ℚ :=
  let ip := s.takeWhile isDig
  let r1 := s.dropWhile isDig
  match r1 with
  | '.' :: r2 =>
    let fp := r2.takeWhile isDig
    let r3 := r2.dropWhile isDig
    if ip = [] ∧ fp = [] then .error ()
    else
      let m : ℚ := mkRat (digitsToNat (ip ++ fp) : Int) (10 ^ fp.length)
      match r3 with
      | [] => .ok m
      | 'e' :: r4 => (pyFloatExp r4).map (fun e => qMulPow10 m e)
      | 'E' :: r4 => (pyFloatExp r4).map (fun e => qMulPow10 m e)
      | _ => .error ()
  | 'e' :: r4 =>
    if ip = [] then .error ()
    else (pyFloatExp r4).map (fun e => qMulPow10 (digitsToNat ip : ℚ) e)
  | 'E' :: r4 =>
    if ip = [] then .error ()
    else (pyFloatExp r4).map (fun e => qMulPow10 (digitsToNat ip : ℚ) e)
  | [] => if ip = [] then .error () else .ok (digitsToNat ip : ℚ)
  | _ => .error ()

/-- Python's `float(s)`: strip surrounding whitespace, read an optional sign,
then either a case-insensitive `inf` / `infinity` / `nan` keyword or a
decimal literal.  Raises (`ValueError`) on anything else. -/
def pyFloat (s0 : List Char) : Except Unit PFloat :=
  let s1 := s0.dropWhile isPySpace
  let s := (s1.reverse.dropWhile isPySpace).reverse
  let sgn : Bool × List Char :=
    match s with
    | '+' :: r => (true, r)
    | '-' :: r => (false, r)
    | r => (true, r)
  let lower := sgn.2.map lowerC
  if lower = strL "inf" ∨ lower = strL "infinity" then .ok (.inf sgn.1)
  else if lower = strL "nan" then .ok .nan
  else
    (pyFloatBody sgn.2).map (fun q => .fin (if sgn.1 then q else -q))

/-- Python's `int(s)` as used on the `Cycle:` token: strip whitespace, an
optional sign, then a nonempty digit run. -/
def pyInt (s0 : List Char) : Except Unit Int :=
  let s1 := s0.dropWhile isPySpace
  let s := (s1.reverse.dropWhile isPySpace).reverse
  match s with
  | '+' :: r => (if r ≠ [] ∧ r.all isDig then .ok (digitsToNat r : Int) else .error ())
  | '-' :: r => (if r ≠ [] ∧ r.all isDig then .ok (-(digitsToNat r : Int)) else .error ())
  | r => (if r ≠ [] ∧ r.all isDig then .ok (digitsToNat r : Int) else .error ())

/-- The `np.isnan` check applied to the parsed energy (infinities are not
NaN). -/
def pIsNan : PFloat → Bool
  | .nan => true
  | _ => false

/-- Division of a rational by a natural number, on the raw representation so
that it evaluates by kernel reduction.  `qDivNat q n = q / n` (also for
`n = 0`, where both sides are `0`, though the parser never divides by zero). -/
def qDivNat (q : ℚ) (n : Nat) : ℚ := mkRat q.num (q.den * n)

/-- Float division by the atom count, `self.energy/len(self.frac_coords)`:
raises `ZeroDivisionError` on an empty coordinate list. -/
def pDivNat (p : PFloat) (n : Nat) : Except Unit PFloat :=
  if n = 0 then .error ()
  else .ok (match p with
    | .fin q => .fin (qDivNat q n)
    | .nan => .nan
    | .inf b => .inf b)

/-! ### Force-table row repair (`GULP.read`, forces section)

The source takes `g = lines[s].split()[3:6]`, pads `g` with one-character
`' '` strings to length 3, and then runs a two-iteration loop that splits
fields at the positions of embedded minus signs
(`min_index = [i+1 for i,e in enumerate(g[j][1:]) if e == '-']`). -/

/-- Positions `k, k+1, ...` of `'-'` characters in a list. -/
def minIndexFrom (k : Nat) : List Char → List Nat
  | [] => []
  | c :: cs => if c = '-' then k :: minIndexFrom (k + 1) cs else minIndexFrom (k + 1) cs

/-- The source's `min_index`: positions of `'-'` in `g[1:]`, shifted by one,
i.e. the positions `≥ 1` of `'-'` inside the token. -/
def minIndex : List Char → List Nat
  | [] => []
  | _ :: cs => minIndexFrom 1 cs

/-- The two-iteration repair loop of the forces reader, acting on the three
padded fields.  `j = 0`: one embedded minus in `g[0]` shifts the fields
right and splits `g[0]`; two or more split `g[0]` into all three fields and
`break`.  `j = 1` (reached when `j = 0` split at most once): an embedded
minus in the current `g[1]` splits it into `g[1]`, `g[2]`. -/
def repair3 (g0 g1 g2 : List Char) : List Char × List Char × List Char :=
  match minIndex g0 with
  | [] =>
    (match minIndex g1 with
     | [] => (g0, g1, g2)
     | i :: _ => (g0, g1.take i, g1.drop i))
  | [i] =>
    let a := g0.take i
    let b := g0.drop i
    (match minIndex b with
     | [] => (a, b, g1)
     | k :: _ => (a, b.take k, b.drop k))
  | i :: k :: _ => (g0.take i, (g0.drop i).take (k - i), g0.drop k)

/-- Pad the sliced token list to three entries with one-character `' '`
fields (`for t in range(3-len(g)): g.append(' ')`). -/
def padTokens (g : List (List Char)) : List (List Char) :=
  g ++ List.replicate (3 - g.length) [' ']

/-- Padding followed by the minus-sign repair loop. -/
def repairTokens (g : List (List Char)) : List (List Char) :=
  match padTokens g with
  | [a, b, c] => ((repair3 a b c).1) :: ((repair3 a b c).2.1) :: [(repair3 a b c).2.2]
  | l => l

/-- The `ase.units` conversion constants: ASE's internal units are eV and
Angstrom, so both are `1.0`. -/
def aseEV : ℚ := 1

/-- See `aseEV`. -/
def aseAng : ℚ := 1

/-- One entry of `G = [-float(x) * eV / Ang for x in g]`: sign inversion and
the (identity) unit conversion.  Since `eV = Ang = 1`, multiplying and
dividing a finite value by them leaves `-q`; the sign of an infinity is
flipped by the negation and a NaN stays NaN. -/
def forceVal : PFloat → PFloat
  | .fin q => .fin (-q)
  | .nan => .nan
  | .inf b => .inf (!b)

/-- Repair the (already sliced) force-row fields and convert each to a
sign-inverted, unit-scaled float. -/
def parseForceTokens (g : List (List Char)) : Except Unit (List PFloat) :=
  (repairTokens g).mapM (fun t => (pyFloat t).map forceVal)

/-- Parse one force-table row: `g = lines[s].split()[3:6]`, then repair and
convert. -/
def parseForceRow (row : List Char) : Except Unit (List PFloat) :=
  parseForceTokens (((pySplit row).drop 3).take 3)

/-! ### Energy-marker matching (`GULP.read`, lines 196-206)

The source matches one of three anchored regexes per line, chosen by the
run configuration:

  `\s*Non-primitive unit cell\s*=\s*(\S+)\s*eV`   (symmetry, non-primitive)
  `\s*Total lattice energy\s*=\s*(\S+)\s*eV`      (no or zero pressure)
  `\s*Total lattice enthalpy\s*=\s*(\S+)\s*eV`    (nonzero pressure)

All three share the shape `\s* marker \s* = \s* (\S+) \s* eV` under
`re.match` (anchored at the start, trailing text ignored).  Because `\s`
and `\S` are complementary, every `\s*` run is forced to consume a maximal
whitespace run; the only backtracking freedom is the greedy `(\S+)`. -/

/-- All splits of a leading nonempty nonspace run into (prefix, rest),
shortest prefix first. -/
def nonWSplits : List Char → List (List Char × List Char)
  | [] => []
  | c :: cs =>
    if isPySpace c then []
    else ([c], cs) :: (nonWSplits cs).map (fun p => (c :: p.1, p.2))

/-- Match `\s* marker \s* = \s* (\S+) \s* eV` as a prefix of `line`,
returning the captured group.  The greedy `(\S+)` is modelled by trying the
longest candidate first. -/
def matchEnergy (marker line : List Char) : Option (List Char) :=
  match dropLit marker (line.dropWhile isPySpace) with
  | none => none
  | some r1 =>
    match dropLit (strL "=") (r1.dropWhile isPySpace) with
    | none => none
    | some r2 =>
      (((nonWSplits (r2.dropWhile isPySpace)).reverse).find?
        (fun p => (dropLit (strL "eV") (p.2.dropWhile isPySpace)).isSome)).map
        (fun p => p.1)

/-- Marker literal for the symmetry / non-primitive-group configuration. -/
def nonPrimMarker : List Char := strL "Non-primitive unit cell"

/-- Marker literal for the no-pressure (or zero-pressure) configuration. -/
def plainMarker : List Char := strL "Total lattice energy"

/-- Marker literal for the nonzero-pressure configuration. -/
def enthalpyMarker : List Char := strL "Total lattice enthalpy"

/-! ### The output parser `GULP.read` -/

/-- The symmetry metadata the parser takes from the attached pyxtal object
(an external collaborator): whether the space-group symbol starts with a
letter other than `'P'` (`self.pyxtal.group.symbol[0] != 'P'`), the lattice
family string `self.pyxtal.lattice.ltype`, and the positions of the
symmetry-reduced atom sites (`self.pyxtal.atom_sites`, updated in place by
the asymmetric-unit section). -/
structure PyxInfo where
  nonPrimGroup : Bool
  ltype : List Char
deriving DecidableEq, Repr

/-- The run configuration the parser consults: the symmetry-imposition flag,
the optional external pressure, and the optional pyxtal metadata
(`self.pyxtal is None` when the calculator was built from a plain ASE
structure). -/
structure RCfg where
  symmetry : Bool
  pstress : Option ℚ
  pyx : Option PyxInfo
deriving DecidableEq, Repr

/-- A lattice object produced by the external `Lattice` collaborator,
tagged by which constructor the source called and with exactly the
arguments it passed: `Lattice.from_matrix(lattice_vectors, ltype=ltype)` or
`Lattice.from_para(a, b, c, alpha, beta, gamma, ltype)`.  `init` stands for
the working lattice the calculator held before parsing. -/
inductive LatVal where
  | init
  | fromMatrix (m : List (List PFloat)) (ltype : List Char)
  | fromPara (a b c alpha beta gamma : PFloat) (ltype : List Char)
deriving DecidableEq, Repr

/-- The mutable result fields of the calculator touched by `read`,
initialized as in `GULP.__init__`. -/
structure RState where
  energy : Option PFloat
  energy_per_atom : Option PFloat
  optimized : Bool
  cputime : PFloat
  iter : Int
  stress : Option (List PFloat)
  forces : Option (List (List PFloat))
  frac_coords : List (List PFloat)
  sitesPos : List (List PFloat)
  error : Bool
  lattice : LatVal
deriving DecidableEq, Repr

/-- A fresh result state as left by `GULP.__init__` (lines 59-67): no
energy, no stress or forces, zero cputime and iteration count, `error`
false, plus the caller-supplied coordinates, site positions and working
lattice. -/
def initRState (frac : List (List PFloat)) (sites : List (List PFloat)) (lat : LatVal) : RState :=
  { energy := none, energy_per_atom := none, optimized := false,
    cputime := .fin 0, iter := 0, stress := none, forces := none,
    frac_coords := frac, sitesPos := sites, error := false, lattice := lat }

/-- The lattice family used when tagging parsed lattices:
`self.pyxtal.lattice.ltype` when a pyxtal object is attached, else
`'triclinic'` (lines 188-191). -/
def ltypeOf (cfg : RCfg) : List Char :=
  match cfg.pyx with
  | some p => p.ltype
  | none => strL "triclinic"

/-- Truth of `self.pstress is None or self.pstress == 0`. -/
def pstressZero (p : Option ℚ) : Bool :=
  match p with
  | none => true
  | some q => q = 0

/-- The energy-marker regex selected per line (lines 197-202): the
non-primitive marker when symmetry is imposed and the group symbol does not
start with `'P'`; otherwise the plain lattice-energy marker when the
pressure is absent or zero, else the enthalpy marker.  Evaluating the
symmetry condition dereferences `self.pyxtal.group`, which raises
(`AttributeError`) when symmetry is imposed but no pyxtal object is
attached. -/
def selectMarker (cfg : RCfg) : Except Unit (List Char) :=
  if cfg.symmetry then
    match cfg.pyx with
    | none => .error ()
    | some p =>
      if p.nonPrimGroup then .ok nonPrimMarker
      else if pstressZero cfg.pstress then .ok plainMarker
      else .ok enthalpyMarker
  else if pstressZero cfg.pstress then .ok plainMarker
  else .ok enthalpyMarker

/-- One row of the stress-tensor section: `lines[i+j+3].split()`, columns 1
and 3 converted to floats. -/
def stressRow (lines : List (List Char)) (r : Nat) : Except Unit (PFloat × PFloat) := do
  let row ← pyIdx lines r
  let t := pySplit row
  let v1 ← pyIdx t 1
  let a ← pyFloat v1
  let v3 ← pyIdx t 3
  let b ← pyFloat v3
  .ok (a, b)

/-- The separator pattern ending the forces and fractional-coordinates
tables (`lines[s].find("------------")`). -/
def dashesS : List Char := strL "------------"

/-- The forces table loop: starting at row `s`, stop at a separator row,
otherwise repair-and-convert the row and continue.  Running past the end of
`lines` raises (`IndexError`).  The fuel argument only bounds the
recursion; it is chosen large enough (more than the number of lines) that
it never runs out before the separator or the end of input. -/
def forcesLoop (lines : List (List Char)) : Nat → Nat → List (List PFloat) →
    Except Unit (List (List PFloat))
  | 0, _, _ => .error ()
  | fuel + 1, s, acc => do
    let row ← pyIdx lines s
    if strContains dashesS row then .ok acc.reverse
    else do
      let g ← parseForceRow row
      forcesLoop lines fuel (s + 1) (g :: acc)

/-- The asymmetric-unit loop: for `_i in range(len(atom_sites))`, read
`lines[s+_i].split()[3:6]` as floats and update site `_i`'s position in
place.  (On an exception the source leaves the sites updated so far
mutated; the all-or-nothing `Except` embedding discards them.  The fields
any post-scan logic consults — energy, error, lattice — are unaffected.) -/
def asymLoop (lines : List (List Char)) (s : Nat) : Nat → Nat → List (List PFloat) →
    Except Unit (List (List PFloat))
  | 0, _, sites => .ok sites
  | k + 1, idx, sites => do
    let row ← pyIdx lines (s + idx)
    let xyz := ((pySplit row).drop 3).take 3
    let v ← xyz.mapM pyFloat
    asymLoop lines s k (idx + 1) (sites.set idx v)

/-- The fractional-coordinates table loop: starting at row `s`, stop at a
separator row; otherwise convert columns 3-5 to floats and also read the
species token at column 1 (whose absence raises `IndexError`, even though
the species list is ultimately discarded). -/
def fracLoop (lines : List (List Char)) : Nat → Nat → List (List PFloat) →
    Except Unit (List (List PFloat))
  | 0, _, _ => .error ()
  | fuel + 1, s, acc => do
    let row ← pyIdx lines s
    if strContains dashesS row then .ok acc.reverse
    else do
      let xyz := ((pySplit row).drop 3).take 3
      let v ← xyz.mapM pyFloat
      let _sp ← pyIdx (pySplit row) 1
      fracLoop lines fuel (s + 1) (v :: acc)

/-- One row of the Cartesian lattice-vector block: the first three
whitespace-separated columns as floats. -/
def rowOf3 (lines : List (List Char)) (j : Nat) : Except Unit (List PFloat) := do
  let row ← pyIdx lines j
  let t := pySplit row
  let c0 ← pyIdx t 0
  let a ← pyFloat c0
  let c1 ← pyIdx t 1
  let b ← pyFloat c1
  let c2 ← pyIdx t 2
  let c ← pyFloat c2
  .ok [a, b, c]

/-- The `3 x 3` matrix read two lines below the Cartesian-vectors header. -/
def readMatrix3 (lines : List (List Char)) (s : Nat) : Except Unit (List (List PFloat)) := do
  let r0 ← rowOf3 lines s
  let r1 ← rowOf3 lines (s + 1)
  let r2 ← rowOf3 lines (s + 2)
  .ok [r0, r1, r2]

/-- The two fixed-format lines of the non-primitive lattice-parameters
block: `a, b, c` at columns 2, 5, 8 of `lines[i+2]` and the angles at
columns 1, 3, 5 of `lines[i+3]`. -/
def readNonPrimPara (lines : List (List Char)) (s : Nat) (lt : List Char) :
    Except Unit LatVal := do
  let r1 ← pyIdx lines s
  let t1 := pySplit r1
  let a1 ← pyIdx t1 2
  let a ← pyFloat a1
  let b1 ← pyIdx t1 5
  let b ← pyFloat b1
  let c1 ← pyIdx t1 8
  let c ← pyFloat c1
  let r2 ← pyIdx lines (s + 1)
  let t2 := pySplit r2
  let d1 ← pyIdx t2 1
  let al ← pyFloat d1
  let d3 ← pyIdx t2 3
  let be ← pyFloat d3
  let d5 ← pyIdx t2 5
  let ga ← pyFloat d5
  .ok (.fromPara a b c al be ga lt)

/-- Processing of one output line at index `i` (the body of the `for i,
line in enumerate(lines)` loop), threading the result state and the two
loop-local lattice candidates `lattice_para` and `lattice_vector`.  Any
raised exception is propagated to the enclosing `try`. -/
def processLine (cfg : RCfg) (lines : List (List Char)) (i : Nat) (line : List Char)
    (st : RState) (lp lv : Option LatVal) :
    Except Unit (RState × Option LatVal × Option LatVal) := do
  let sel ← selectMarker cfg
  match matchEnergy sel line with
  | some v => do
    let e ← pyFloat v
    let pa ← pDivNat e st.frac_coords.length
    -- On a ZeroDivisionError the source has already assigned `self.energy`;
    -- the except clause then resets it to None, so the all-or-nothing
    -- embedding reaches the same observable state.
    .ok ({ st with energy := some e, energy_per_atom := some pa }, lp, lv)
  | none =>
    if strContains (strL "Job Finished") line then
      .ok ({ st with optimized := true }, lp, lv)
    else if strContains (strL "Total CPU time") line then do
      let lastTok ← pyLast (pySplit line)
      let c ← pyFloat lastTok
      .ok ({ st with cputime := c }, lp, lv)
    else if strContains (strL "Final stress tensor components") line then do
      let p0 ← stressRow lines (i + 3)
      let p1 ← stressRow lines (i + 4)
      let p2 ← stressRow lines (i + 5)
      .ok ({ st with stress := some [p0.1, p1.1, p2.1, p0.2, p1.2, p2.2] }, lp, lv)
    else if strContains (strL "Final internal derivatives") line then do
      let fs ← forcesLoop lines (lines.length + 2) (i + 6) []
      .ok ({ st with forces := some fs }, lp, lv)
    else if strContains (strL " Cycle: ") line then do
      let t1 ← pyIdx (pySplit line) 1
      let v ← pyInt t1
      .ok ({ st with iter := v }, lp, lv)
    else if strContains (strL "Final asymmetric unit coordinates") line then
      match cfg.pyx with
      | none => .error ()
      | some _ => do
        let newSites ← asymLoop lines (i + 6) st.sitesPos.length 0 st.sitesPos
        .ok ({ st with sitesPos := newSites }, lp, lv)
    else if strContains (strL "Final fractional coordinates of atoms") line then do
      let ps ← fracLoop lines (lines.length + 2) (i + 6) []
      .ok ({ st with frac_coords := ps }, lp, lv)
    else if strContains (strL "Final Cartesian lattice vectors") line then do
      let m ← readMatrix3 lines (i + 2)
      .ok (st, lp, some (.fromMatrix m (ltypeOf cfg)))
    else if strContains (strL "Non-primitive lattice parameters") line then do
      let lt ← readNonPrimPara lines (i + 2) (ltypeOf cfg)
      .ok (st, some lt, lv)
    else
      .ok (st, lp, lv)

/-- The scanning loop over all lines.  On an exception the loop stops and
the state accumulated so far is kept, with the final flag recording that an
exception was raised (so that the `except` clause runs). -/
def scanGo (cfg : RCfg) (lines : List (List Char)) :
    List (List Char) → Nat → RState → Option LatVal → Option LatVal →
    RState × Option LatVal × Option LatVal × Bool
  | [], _, st, lp, lv => (st, lp, lv, false)
  | l :: rest, i, st, lp, lv =>
    match processLine cfg lines i l st lp lv with
    | .error _ => (st, lp, lv, true)
    | .ok (st2, lp2, lv2) => scanGo cfg lines rest (i + 1) st2 lp2 lv2

/-- Scan every line of the report, returning the final state, the two
lattice candidates, and whether an exception was raised. -/
def scanAll (cfg : RCfg) (lines : List (List Char)) (st0 : RState) :
    RState × Option LatVal × Option LatVal × Bool :=
  scanGo cfg lines lines 0 st0 none none

/-- `GULP.read` (lines 184-317): scan the lines inside `try`, on exception
set the error flag and discard the energy; afterwards resolve the lattice
(parameters take priority over Cartesian vectors, neither present is an
error that also discards the energy), and finally flag a missing or NaN
energy.  (The in-place `self.pyxtal.lattice = self.lattice` mirror on the
external pyxtal object is a collaborator side effect not modelled here.) -/
def read (cfg : RCfg) (st0 : RState) (lines : List (List Char)) : RState :=
  let r := scanAll cfg lines st0
  let st1 := r.1
  let lp := r.2.1
  let lv := r.2.2.1
  let raised := r.2.2.2
  let st2 := if raised then { st1 with error := true, energy := none } else st1
  let st3 :=
    match lp with
    | some l => { st2 with lattice := l }
    | none =>
      match lv with
      | some l => { st2 with lattice := l }
      | none => { st2 with error := true, energy := none }
  match st3.energy with
  | none => { st3 with error := true, energy := none }
  | some e => if pIsNan e then { st3 with error := true, energy := none } else st3

/-! ### The input writer `GULP.write`

`write` is modelled as the list of strings passed to `f.write`, in order
(one list entry per `f.write` call); the emitted document is their
concatenation.  Python's fixed-point float formatting `'{:W.Pf}'` is
modelled exactly over the rationals with round-half-to-even. -/

/-- Decimal digits of a natural number, most significant first. -/
def natDigitsL (n : Nat) : List Char := Nat.toDigits 10 n

/-- Left-pad with spaces to a minimum width (numeric formatting). -/
def padLeft (w : Nat) (s : List Char) : List Char :=
  List.replicate (w - s.length) ' ' ++ s

/-- Right-pad with spaces to a minimum width (`'{:4s}'` string formatting). -/
def padRight (w : Nat) (s : List Char) : List Char :=
  s ++ List.replicate (w - s.length) ' '

/-- Left-pad with zeros to a fixed number of fraction digits. -/
def padZeros (w : Nat) (s : List Char) : List Char :=
  List.replicate (w - s.length) '0' ++ s

/-- Round `|q| * 10^p` to the nearest integer, ties to even, written on the
raw numerator/denominator representation so that it evaluates by kernel
reduction. -/
def roundMag (q : ℚ) (p : Nat) : Nat :=
  let n := q.num.natAbs * 10 ^ p
  let d := q.den
  let f := n / d
  let r := n % d
  if 2 * r < d then f
  else if d < 2 * r then f + 1
  else if f % 2 = 0 then f else f + 1

/-- Python's `'{:W.Pf}'.format(q)`: fixed-point rendering with `P` fraction
digits, right-aligned in width `W`. -/
def formatFixed (w p : Nat) (q : ℚ) : List Char :=
  let m := roundMag q p
  let ip := m / 10 ^ p
  let fp := m % 10 ^ p
  let body := natDigitsL ip ++ (if p = 0 then [] else '.' :: padZeros p (natDigitsL fp))
  padLeft w (if q < 0 then '-' :: body else body)

/-- Python's `'{:d}'.format(i)`. -/
def formatInt (i : Int) : List Char :=
  if i < 0 then '-' :: natDigitsL i.natAbs else natDigitsL i.toNat

/-- The writer-relevant run configuration (`GULP.__init__` arguments):
optimization mode string, symmetry flag, forcefield name, iteration cap,
optional pressure, optional dump path, optional species-label overrides. -/
structure WCfg where
  opt : List Char
  symmetry : Bool
  ff : List Char
  steps : Int
  pstress : Option ℚ
  dump : Option (List Char)
  labels : Option (List (List Char × List Char))
deriving DecidableEq, Repr

/-- The pyxtal data used by the symmetric coordinate block: the
symmetry-reduced sites (`site.specie`, `site.position`) and the space-group
number. -/
structure WPyx where
  atomSites : List (List Char × (ℚ × ℚ × ℚ))
  groupNumber : Int
deriving DecidableEq, Repr

/-- The structure data consumed by `write`: the six cell parameters
returned by `self.lattice.get_para(degree=True)`, the fractional
coordinates, the per-atom chemical symbols, and the optional pyxtal
object. -/
structure WStruc where
  a : ℚ
  b : ℚ
  c : ℚ
  alpha : ℚ
  beta : ℚ
  gamma : ℚ
  frac_coords : List (ℚ × ℚ × ℚ)
  sites : List (List Char)
  pyx : Option WPyx
deriving DecidableEq, Repr

/-- One `'{:4s} {:12.6f} {:12.6f} {:12.6f} core \n'` coordinate line. -/
def coreLine (sym : List Char) (x y z : ℚ) : List Char :=
  padRight 4 sym ++ strL " " ++ formatFixed 12 6 x ++ strL " " ++ formatFixed 12 6 y
    ++ strL " " ++ formatFixed 12 6 z ++ strL " core \n"

/-- The matching `shell` line emitted for oxygen under the catlow
forcefield. -/
def shellLine (sym : List Char) (x y z : ℚ) : List Char :=
  padRight 4 sym ++ strL " " ++ formatFixed 12 6 x ++ strL " " ++ formatFixed 12 6 y
    ++ strL " " ++ formatFixed 12 6 z ++ strL " shell \n"

/-- The mode-directive chunks (lines 119-127): the solver line (`conv` and
any mode other than `single` take the `opti stress ... conjugate` form,
`single` takes `grad conp stress`), followed by `nosymmetry` when symmetry
is not imposed. -/
def directiveChunks (cfg : WCfg) : List (List Char) :=
  (if cfg.opt = strL "conv" then [strL "opti stress " ++ cfg.opt ++ strL " conjugate "]
   else if cfg.opt = strL "single" then [strL "grad conp stress "]
   else [strL "opti stress " ++ cfg.opt ++ strL " conjugate "])
  ++ (if cfg.symmetry then [] else [strL "nosymmetry\n"])

/-- The cell block (lines 129-131): header plus the six parameters on one
fixed-width line. -/
def cellChunks (ws : WStruc) : List (List Char) :=
  [strL "\ncell\n",
   formatFixed 12 6 ws.a ++ formatFixed 12 6 ws.b ++ formatFixed 12 6 ws.c
     ++ formatFixed 12 6 ws.alpha ++ formatFixed 12 6 ws.beta ++ formatFixed 12 6 ws.gamma
     ++ strL "\n"]

/-- The fractional-coordinates block (lines 132-150): symmetry-reduced
sites plus space group and origin when symmetry is imposed and a pyxtal
object is attached, otherwise one line per atom. -/
def coordChunks (cfg : WCfg) (ws : WStruc) : List (List Char) :=
  strL "\nfractional\n" ::
  (match ws.pyx, cfg.symmetry with
   | some px, true =>
     (px.atomSites.flatMap (fun s =>
        coreLine s.1 s.2.1 s.2.2.1 s.2.2.2 ::
        (if cfg.ff = strL "catlow" ∧ s.1 = strL "O"
         then [shellLine s.1 s.2.1 s.2.2.1 s.2.2.2] else [])))
     ++ [strL "\nspace\n" ++ formatInt px.groupNumber ++ strL "\n",
         strL "\norigin\n0 0 0\n"]
   | _, _ =>
     (ws.frac_coords.zip ws.sites).map (fun p => coreLine p.2 p.1.1 p.1.2.1 p.1.2.2))

/-- Python's `list(set(self.sites))`: the distinct chemical symbols.  CPython
set iteration order is implementation-defined; it is modelled as
first-occurrence order. -/
def pySetList (l : List (List Char)) : List (List Char) := l.eraseDups

/-- The species block (lines 151-170).  `self.species` is always `None`
here (line 31's assignment is unconditionally overwritten by line 40), so
the species list is always `list(set(self.sites))`. -/
def speciesChunks (cfg : WCfg) (ws : WStruc) : List (List Char) :=
  let species := pySetList ws.sites
  strL "\nSpecies\n" ::
  (match cfg.labels with
   | some ls =>
     species.map (fun sp =>
       match ls.find? (fun p => p.1 == sp) with
       | some p => padRight 4 sp ++ strL " core " ++ p.2 ++ strL "\n"
       | none => padRight 4 sp ++ strL " core " ++ padRight 4 sp ++ strL "\n")
   | none =>
     species.flatMap (fun sp =>
       if cfg.ff = strL "catlow" ∧ sp = strL "O"
       then [strL "O    core O_O2- core\n", strL "O    shell O_O2- shell\n"]
       else [padRight 4 sp ++ strL " core " ++ padRight 4 sp ++ strL "\n"]))

/-- The trailer directives (lines 172-181): the forcefield library line,
the fixed Ewald cutoff, the iteration cap (omitted in single-point mode),
the pressure directive (when a pressure is configured, including zero), and
the dump request. -/
def trailerChunks (cfg : WCfg) : List (List Char) :=
  [strL "library " ++ cfg.ff ++ strL "\n", strL "ewald 10.0\n"]
  ++ (if cfg.opt ≠ strL "single" then [strL "maxcycle " ++ formatInt cfg.steps ++ strL "\n"]
      else [])
  ++ (match cfg.pstress with
      | some p => [strL "pressure " ++ formatFixed 6 3 p ++ strL "\n"]
      | none => [])
  ++ (match cfg.dump with
      | some d => [strL "output cif " ++ d ++ strL "\n"]
      | none => [])

/-- `GULP.write` (lines 115-181) as the ordered list of strings passed to
`f.write`. -/
def writeChunks (cfg : WCfg) (ws : WStruc) : List (List Char) :=
  directiveChunks cfg ++ cellChunks ws ++ coordChunks cfg ws
    ++ speciesChunks cfg ws ++ trailerChunks cfg

/-! ### Cleanup `GULP.clean`

The filesystem is modelled as the list of present file paths; `os.remove`
deletes a present file and raises `FileNotFoundError` on an absent one. -/

/-- `os.remove`: delete the path or raise when it is absent. -/
def osRemove (p : List Char) (fs : List (List Char)) : Except Unit (List (List Char)) :=
  if p ∈ fs then .ok (fs.erase p) else .error ()

/-- The file names `clean` operates on: `self.input`, `self.output` and the
optional `self.dump`. -/
structure CleanCfg where
  input : List Char
  output : List Char
  dump : Option (List Char)
deriving DecidableEq, Repr

/-- `GULP.clean` (lines 89-93): remove the input file, then the output
file, then the dump file when one is configured.  There is no exception
handling: a missing file propagates the error to the caller. -/
def clean (c : CleanCfg) (fs : List (List Char)) : Except Unit (List (List Char)) := do
  let fs1 ← osRemove c.input fs
  let fs2 ← osRemove c.output fs1
  match c.dump with
  | none => .ok fs2
  | some d => osRemove d fs2

/-! ### The multi-pass driver `optimize`

`single_optimize` builds a calculator, runs the external executable and
parses its output; the whole pass is abstracted as an oracle
`step : DStruc → List Char → Option (DStruc × ℚ × ℚ)` returning the
resulting structure, energy per atom and cpu time on success and `none`
when the pass reported an error (`single_optimize` then returns
`(None, None, 0, True)`). -/

/-- The lattice of the driver's structure object, holding the matrix that
`set_matrix` replaces. -/
structure DLattice where
  matrix : List (List ℚ)
deriving DecidableEq, Repr

/-- The structure threaded between passes. -/
structure DStruc where
  lattice : DLattice
deriving DecidableEq, Repr

/-- `struc.lattice.set_matrix(m)` (the external collaborator's setter). -/
def setMatrix (s : DStruc) (m : List (List ℚ)) : DStruc :=
  { s with lattice := { matrix := m } }

/-- Uniform scaling of a matrix, entrywise on the raw rational
representation so that it evaluates by kernel reduction. -/
def scaleMatrix (m : List (List ℚ)) (num : Int) (den : Nat) : List (List ℚ) :=
  m.map (fun r => r.map (fun q => mkRat (q.num * num) (q.den * den)))

/-- The near-zero energy threshold `1e-8` of the degeneracy-avoidance
branch, as an exact rational. -/
def nearZeroThresh : ℚ := mkRat 1 100000000

/-- The outcome of `optimize`: `(None, None, 0, True)` on a failed pass,
the final structure with its energy and accumulated time otherwise.
`nameError` records the `NameError` Python would raise when returning
`energy` after a loop over an empty mode list ever bound it. -/
inductive OptOutcome where
  | failure
  | success (s : DStruc) (energy : ℚ) (time : ℚ)
  | nameError
deriving DecidableEq, Repr

/-- The loop of `optimize` (lines 347-358): run each mode via
`single_optimize`, accumulate time, abort on error, and under `adjust`
shrink the lattice matrix by the factor `0.8` after a pass whose energy
magnitude is below `1e-8`. -/
def optimizeGo (step : DStruc → List Char → Option (DStruc × ℚ × ℚ)) (adjust : Bool) :
    DStruc → List (List Char) → ℚ → Option ℚ → OptOutcome
  | _, [], _, none => .nameError
  | s, [], t, some e => .success s e t
  | s, opt :: rest, t, _ =>
    match step s opt with
    | none => .failure
    | some (s2, e, tp) =>
      let s3 := if adjust ∧ |e| < nearZeroThresh
                then setMatrix s2 (scaleMatrix s2.lattice.matrix 4 5) else s2
      optimizeGo step adjust s3 rest (t + tp) (some e)

/-- `optimize` (lines 340-358). -/
def optimize (step : DStruc → List Char → Option (DStruc × ℚ × ℚ)) (adjust : Bool)
    (s : DStruc) (opts : List (List Char)) : OptOutcome :=
  optimizeGo step adjust s opts 0 none

/-! ### Lemmas about the force-row repair -/

/-- Minus positions of a concatenation: those of the first part, then those
of the second shifted by its offset. -/
theorem minIndexFrom_append (u v : List Char) (k : Nat) :
    minIndexFrom k (u ++ v) = minIndexFrom k u ++ minIndexFrom (k + u.length) v := by
  induction u generalizing k with
  | nil => simp [minIndexFrom]
  | cons c cs ih =>
    simp only [List.cons_append, minIndexFrom, List.length_cons, List.append_eq]
    have harg : k + 1 + cs.length = k + (cs.length + 1) := by omega
    split
    · rw [ih (k + 1), harg]
      simp
    · rw [ih (k + 1), harg]

/-- A token stretch contributes no minus positions iff it contains no
minus character (at any offset). -/
theorem minIndexFrom_eq_nil (u : List Char) (k : Nat) :
    minIndexFrom k u = [] ↔ ∀ c ∈ u, c ≠ '-' := by
  induction u generalizing k with
  | nil => simp [minIndexFrom]
  | cons c cs ih =>
    simp only [minIndexFrom, List.mem_cons]
    split
    · simp_all
    · rw [ih (k + 1)]
      constructor
      · rintro h d (rfl | hd)
        · assumption
        · exact h d hd
      · intro h d hd
        exact h d (Or.inr hd)

/-- The raw-representation division agrees with rational division. -/
theorem qDivNat_eq (q : ℚ) (n : Nat) : qDivNat q n = q / (n : ℚ) := by
  rw [qDivNat, Rat.mkRat_eq_div]
  push_cast
  rw [div_mul_eq_div_div, Rat.num_div_den]

/-- A merged pair of numeric fields, the second negative and neither
containing an interior minus, has exactly one embedded minus position: the
length of the first field. -/
theorem minIndex_append_cons (x0 : Char) (xs ys : List Char)
    (hxs : ∀ c ∈ xs, c ≠ '-') (hys : ∀ c ∈ ys, c ≠ '-') :
    minIndex ((x0 :: xs) ++ '-' :: ys) = [xs.length + 1] := by
  simp only [List.cons_append, minIndex]
  rw [minIndexFrom_append, (minIndexFrom_eq_nil xs 1).mpr hxs]
  simp only [List.nil_append, minIndexFrom, if_pos]
  rw [(minIndexFrom_eq_nil ys _).mpr hys]
  simp [Nat.add_comm]

/-- Three merged fields, the last two negative, have exactly the two
embedded minus positions at the fields' boundaries. -/
theorem minIndex_append_cons_two (x0 : Char) (xs ys ws : List Char)
    (hxs : ∀ c ∈ xs, c ≠ '-') (hys : ∀ c ∈ ys, c ≠ '-') (hws : ∀ c ∈ ws, c ≠ '-') :
    minIndex (((x0 :: xs) ++ '-' :: ys) ++ '-' :: ws)
      = [xs.length + 1, xs.length + 1 + (ys.length + 1)] := by
  simp only [List.cons_append, List.append_eq, minIndex]
  rw [minIndexFrom_append, minIndexFrom_append, (minIndexFrom_eq_nil xs 1).mpr hxs]
  simp only [minIndexFrom, if_pos]
  rw [(minIndexFrom_eq_nil ys _).mpr hys, (minIndexFrom_eq_nil ws _).mpr hws]
  simp only [List.length_append, List.length_cons, List.nil_append, List.cons_append,
    List.cons.injEq, and_true]
  omega

/-- Claim C1: in the `Final internal derivatives` force table, a row whose
adjacent negative-signed numeric fields are merged without a separating
space is split at the positions of the embedded minus signs into exactly
three numeric fields, which are then converted to floats, sign-inverted and
unit-scaled, yielding the same 3-vector as parsing a pre-split variant of
the same row.  `x`, `y`, `z`, `w` are numeric fields with no interior minus
sign; `y` and `w` are negative-signed.  The three merge shapes
(`x++y` with `z` separate, `y++w` after a separate `x`, and all of
`x++y++w` in one column) all repair to the three separate fields, the
pre-split row is left unchanged, and the parsed force vectors coincide. -/
theorem claim_C1 (x y z w : List Char)
    (hx : x ≠ []) (hy : y.head? = some '-') (hw : w.head? = some '-')
    (hmx : minIndex x = []) (hmy : minIndex y = []) (hmw : minIndex w = []) :
    repairTokens [x ++ y, z] = [x, y, z]
    ∧ repairTokens [x, y ++ w] = [x, y, w]
    ∧ repairTokens [x ++ y ++ w] = [x, y, w]
    ∧ repairTokens [x, y, z] = [x, y, z]
    ∧ parseForceTokens [x ++ y, z] = parseForceTokens [x, y, z]
    ∧ parseForceTokens [x, y ++ w] = parseForceTokens [x, y, w]
    ∧ parseForceTokens [x ++ y ++ w] = parseForceTokens [x, y, w] := by
  obtain ⟨x0, xs, rfl⟩ := List.exists_cons_of_ne_nil hx
  cases y with
  | nil => simp at hy
  | cons y0 ys =>
  cases w with
  | nil => simp at hw
  | cons w0 ws =>
  simp only [List.head?_cons, Option.some.injEq] at hy hw
  subst hy
  subst hw
  have hxs := (minIndexFrom_eq_nil xs 1).mp (by simpa [minIndex] using hmx)
  have hys := (minIndexFrom_eq_nil ys 1).mp (by simpa [minIndex] using hmy)
  have hws := (minIndexFrom_eq_nil ws 1).mp (by simpa [minIndex] using hmw)
  have htakeA : ((x0 :: xs) ++ '-' :: ys).take (xs.length + 1) = x0 :: xs := by
    rw [← List.length_cons x0 xs]
    exact List.take_left _ _
  have hdropA : ((x0 :: xs) ++ '-' :: ys).drop (xs.length + 1) = '-' :: ys := by
    rw [← List.length_cons x0 xs]
    exact List.drop_left _ _
  have hA : repair3 ((x0 :: xs) ++ '-' :: ys) z [' '] = (x0 :: xs, '-' :: ys, z) := by
    rw [repair3, minIndex_append_cons x0 xs ys hxs hys]
    simp only [htakeA, hdropA, hmy]
  have htakeB : (('-' :: ys) ++ '-' :: ws).take (ys.length + 1) = '-' :: ys := by
    rw [← List.length_cons '-' ys]
    exact List.take_left _ _
  have hdropB : (('-' :: ys) ++ '-' :: ws).drop (ys.length + 1) = '-' :: ws := by
    rw [← List.length_cons '-' ys]
    exact List.drop_left _ _
  have hB : repair3 (x0 :: xs) (('-' :: ys) ++ '-' :: ws) [' ']
      = (x0 :: xs, '-' :: ys, '-' :: ws) := by
    rw [repair3, hmx, minIndex_append_cons '-' ys ws hys hws]
    simp only [htakeB, hdropB]
  have hassoc : ((x0 :: xs) ++ '-' :: ys) ++ '-' :: ws
      = (x0 :: xs) ++ (('-' :: ys) ++ '-' :: ws) := by
    rw [List.append_assoc]
  have htakeC : (((x0 :: xs) ++ '-' :: ys) ++ '-' :: ws).take (xs.length + 1) = x0 :: xs := by
    rw [hassoc, ← List.length_cons x0 xs]
    exact List.take_left _ _
  have hdropC : (((x0 :: xs) ++ '-' :: ys) ++ '-' :: ws).drop (xs.length + 1)
      = ('-' :: ys) ++ '-' :: ws := by
    rw [hassoc, ← List.length_cons x0 xs]
    exact List.drop_left _ _
  have hdropC2 : (((x0 :: xs) ++ '-' :: ys) ++ '-' :: ws).drop
      (xs.length + 1 + (ys.length + 1)) = '-' :: ws := by
    have hl : ((x0 :: xs) ++ '-' :: ys).length = xs.length + 1 + (ys.length + 1) := by
      simp only [List.length_append, List.length_cons]
    rw [← hl]
    exact List.drop_left _ _
  have hsub : xs.length + 1 + (ys.length + 1) - (xs.length + 1) = ys.length + 1 := by omega
  have hC : repair3 (((x0 :: xs) ++ '-' :: ys) ++ '-' :: ws) [' '] [' ']
      = (x0 :: xs, '-' :: ys, '-' :: ws) := by
    rw [repair3, minIndex_append_cons_two x0 xs ys ws hxs hys hws]
    simp only [hdropC2, hsub]
    rw [hdropC, htakeB, htakeC]
  have hD : repair3 (x0 :: xs) ('-' :: ys) z = (x0 :: xs, '-' :: ys, z) := by
    rw [repair3, hmx, hmy]
  have hRT1 : ∀ a : List Char, repairTokens [a]
      = [(repair3 a [' '] [' ']).1, (repair3 a [' '] [' ']).2.1, (repair3 a [' '] [' ']).2.2] :=
    fun _ => rfl
  have hRT2 : ∀ a b : List Char, repairTokens [a, b]
      = [(repair3 a b [' ']).1, (repair3 a b [' ']).2.1, (repair3 a b [' ']).2.2] :=
    fun _ _ => rfl
  have hRT3 : ∀ a b c : List Char, repairTokens [a, b, c]
      = [(repair3 a b c).1, (repair3 a b c).2.1, (repair3 a b c).2.2] :=
    fun _ _ _ => rfl
  have e1 : repairTokens [(x0 :: xs) ++ '-' :: ys, z] = [x0 :: xs, '-' :: ys, z] := by
    rw [hRT2, hA]
  have e2 : repairTokens [x0 :: xs, ('-' :: ys) ++ '-' :: ws]
      = [x0 :: xs, '-' :: ys, '-' :: ws] := by
    rw [hRT2, hB]
  have e3 : repairTokens [((x0 :: xs) ++ '-' :: ys) ++ '-' :: ws]
      = [x0 :: xs, '-' :: ys, '-' :: ws] := by
    rw [hRT1, hC]
  have e4 : repairTokens [x0 :: xs, '-' :: ys, z] = [x0 :: xs, '-' :: ys, z] := by
    rw [hRT3, hD]
  have e5 : repairTokens [x0 :: xs, '-' :: ys, '-' :: ws]
      = [x0 :: xs, '-' :: ys, '-' :: ws] := by
    have hDw : repair3 (x0 :: xs) ('-' :: ys) ('-' :: ws)
        = (x0 :: xs, '-' :: ys, '-' :: ws) := by
      rw [repair3, hmx, hmy]
    rw [hRT3, hDw]
  exact ⟨e1, e2, e3, e4,
    by rw [parseForceTokens, parseForceTokens, e1, e4],
    by rw [parseForceTokens, parseForceTokens, e2, e5],
    by rw [parseForceTokens, parseForceTokens, e3, e5]⟩

/-- Witness for claim C1 at the spec's example row: the merged pair
`-0.123456-0.234567` next to `0.345678` splits into the three fields, and
the full merged row parses to the same sign-inverted float vector as its
pre-split variant. -/
theorem claim_C1_witness :
    (strL "-0.123456" ≠ ([] : List Char)
      ∧ (strL "-0.234567").head? = some '-'
      ∧ minIndex (strL "-0.123456") = [] ∧ minIndex (strL "-0.234567") = []
      ∧ minIndex (strL "-0.345678") = [])
    ∧ repairTokens [strL "-0.123456" ++ strL "-0.234567", strL "0.345678"]
        = [strL "-0.123456", strL "-0.234567", strL "0.345678"]
    ∧ parseForceRow (strL "      1 C     c       -0.123456-0.234567 0.345678")
        = parseForceRow (strL "      1 C     c       -0.123456 -0.234567 0.345678")
    ∧ parseForceRow (strL "      1 C     c       -0.123456-0.234567 0.345678")
        = .ok [.fin (mkRat 123456 1000000), .fin (mkRat 234567 1000000),
               .fin (mkRat (-345678) 1000000)] :=
  ⟨⟨by decide, by decide, by decide, by decide, by decide⟩,
   (claim_C1 (strL "-0.123456") (strL "-0.234567") (strL "0.345678") (strL "-0.345678")
     (by decide) (by decide) (by decide) (by decide) (by decide) (by decide)).1,
   by decide, by decide⟩

/-- Claim C2: the parser matches exactly one energy-marker kind chosen by
the configuration — the non-primitive-cell marker when symmetry is imposed
on a non-primitive space group, else the enthalpy marker when a nonzero
external pressure is configured, else the plain lattice-energy marker —
and when the selected marker matches a line, its captured numeric value
becomes the energy while the per-atom energy is that value divided by the
atom count. -/
theorem claim_C2 (cfg : RCfg) (st0 : RState) (l v sel : List Char) (q : ℚ)
    (hsel : selectMarker cfg = .ok sel)
    (hm : matchEnergy sel l = some v)
    (hq : pyFloat v = .ok (.fin q))
    (hN : st0.frac_coords.length ≠ 0) :
    (cfg.symmetry = true → ∀ p, cfg.pyx = some p → p.nonPrimGroup = true →
      sel = nonPrimMarker)
    ∧ ((cfg.symmetry = false ∨ ∃ p, cfg.pyx = some p ∧ p.nonPrimGroup = false) →
        (cfg.pstress = none ∨ cfg.pstress = some 0 → sel = plainMarker)
        ∧ (∀ r, cfg.pstress = some r → r ≠ 0 → sel = enthalpyMarker))
    ∧ scanAll cfg [l] st0
        = ({ st0 with energy := some (.fin q), energy_per_atom := some (.fin (q / (st0.frac_coords.length : ℚ))) },
           none, none, false) := by
  refine ⟨?_, ?_, ?_⟩
  · intro hs p hp hg
    rw [selectMarker] at hsel
    simp [hs, hp, hg] at hsel
    exact hsel.symm
  · intro hcase
    constructor
    · intro hz
      have hzz : pstressZero cfg.pstress = true := by
        rcases hz with h | h <;> simp [pstressZero, h]
      rcases hcase with hs | ⟨p, hp, hg⟩
      · rw [selectMarker] at hsel
        simp [hs, hzz] at hsel
        exact hsel.symm
      · by_cases hs : cfg.symmetry
        · rw [selectMarker] at hsel
          simp [hs, hp, hg, hzz] at hsel
          exact hsel.symm
        · rw [selectMarker] at hsel
          simp [hs, hzz] at hsel
          exact hsel.symm
    · intro r hr hrz
      have hzz : pstressZero cfg.pstress = false := by
        simp [pstressZero, hr, hrz]
      rcases hcase with hs | ⟨p, hp, hg⟩
      · rw [selectMarker] at hsel
        simp [hs, hzz] at hsel
        exact hsel.symm
      · by_cases hs : cfg.symmetry
        · rw [selectMarker] at hsel
          simp [hs, hp, hg, hzz] at hsel
          exact hsel.symm
        · rw [selectMarker] at hsel
          simp [hs, hzz] at hsel
          exact hsel.symm
  · rw [scanAll, scanGo, processLine]
    rw [hsel]
    simp only [Except.bind, bind, hm, hq, pDivNat, if_neg hN]
    rw [scanGo]
    rw [qDivNat_eq]

/-- Witness for claim C2: a no-symmetry, no-pressure run selects the plain
lattice-energy marker, and scanning a matching line on a 2-atom state
records the captured energy and its per-atom half. -/
theorem claim_C2_witness :
    (selectMarker { symmetry := false, pstress := none, pyx := none } = .ok plainMarker
      ∧ matchEnergy plainMarker (strL "  Total lattice energy = -9.000000 eV")
          = some (strL "-9.000000")
      ∧ pyFloat (strL "-9.000000") = .ok (.fin (mkRat (-9000000) 1000000))
      ∧ (initRState [[PFloat.fin 0, .fin 0, .fin 0], [.fin 0, .fin 0, .fin 0]] []
          .init).frac_coords.length ≠ 0)
    ∧ scanAll { symmetry := false, pstress := none, pyx := none }
        [strL "  Total lattice energy = -9.000000 eV"]
        (initRState [[PFloat.fin 0, .fin 0, .fin 0], [.fin 0, .fin 0, .fin 0]] [] .init)
      = ({ initRState [[PFloat.fin 0, .fin 0, .fin 0], [.fin 0, .fin 0, .fin 0]] [] .init with energy := some (.fin (mkRat (-9000000) 1000000)), energy_per_atom := some (.fin ((mkRat (-9000000) 1000000) / (((initRState [[PFloat.fin 0, .fin 0, .fin 0], [.fin 0, .fin 0, .fin 0]] [] .init).frac_coords.length : ℚ)))) },
         none, none, false) :=
  ⟨⟨by decide, by decide, by decide, by decide⟩,
   (claim_C2 { symmetry := false, pstress := none, pyx := none }
     (initRState [[PFloat.fin 0, .fin 0, .fin 0], [.fin 0, .fin 0, .fin 0]] [] .init)
     (strL "  Total lattice energy = -9.000000 eV") (strL "-9.000000") plainMarker
     (mkRat (-9000000) 1000000)
     (by decide) (by decide) (by decide) (by decide)).2.2⟩

/-- Claim C3 (amended): after scanning, if no lattice was recovered from
either the Cartesian-vector path or the non-primitive-parameters path, or
if the final energy is absent or NaN (the code's `np.isnan` check — an
infinite energy is not flagged), the run is marked errored and the energy
is left unset, regardless of other extracted fields; and a resolved
lattice replaces the working lattice, the parameters path taking priority. -/
theorem claim_C3 (cfg : RCfg) (st0 : RState) (lines : List (List Char))
    (st1 : RState) (lp lv : Option LatVal) (raised : Bool)
    (h : scanAll cfg lines st0 = (st1, lp, lv, raised)) :
    (lp = none → lv = none →
      (read cfg st0 lines).error = true ∧ (read cfg st0 lines).energy = none)
    ∧ (st1.energy = none ∨ st1.energy = some .nan →
      (read cfg st0 lines).error = true ∧ (read cfg st0 lines).energy = none)
    ∧ (∀ L, lp = some L → (read cfg st0 lines).lattice = L)
    ∧ (∀ L, lp = none → lv = some L → (read cfg st0 lines).lattice = L) := by
  refine ⟨?_, ?_, ?_, ?_⟩
  · intro hlp hlv
    subst hlp hlv
    cases raised <;> simp [read, h]
  · intro he
    rcases he with he | he <;> cases raised <;> rcases lp with _ | L <;> rcases lv with _ | M <;>
      simp [read, h, he, pIsNan]
  · intro L hlp
    subst hlp
    cases raised <;> rcases h1 : st1.energy with _ | e <;> simp [read, h, h1, pIsNan]
    split <;> rfl
  · intro L hlp hlv
    subst hlp hlv
    cases raised <;> rcases h1 : st1.energy with _ | e <;> simp [read, h, h1, pIsNan]
    split <;> rfl

/-- Counterexample to claim C3 as stated: a report whose energy parses to
`+inf` — not a finite number — together with a valid lattice block is NOT
marked errored (the code only checks `np.isnan`, which is false on
infinities), and the infinite energy is kept. -/
theorem claim_C3_counterexample :
    (read { symmetry := false, pstress := none, pyx := none }
        (initRState [[PFloat.fin 0, .fin 0, .fin 0]] [] .init)
        [strL "  Total lattice energy = inf eV",
         strL "  Final Cartesian lattice vectors (Angstroms) :",
         strL "",
         strL "        4.000000    0.000000    0.000000",
         strL "        0.000000    4.000000    0.000000",
         strL "        0.000000    0.000000    4.000000"]).energy = some (.inf true)
    ∧ (read { symmetry := false, pstress := none, pyx := none }
        (initRState [[PFloat.fin 0, .fin 0, .fin 0]] [] .init)
        [strL "  Total lattice energy = inf eV",
         strL "  Final Cartesian lattice vectors (Angstroms) :",
         strL "",
         strL "        4.000000    0.000000    0.000000",
         strL "        0.000000    4.000000    0.000000",
         strL "        0.000000    0.000000    4.000000"]).error = false := by
  constructor
  · decide
  · decide

/-- Witness for claim C3: a report with no lattice block at all (here, an
empty report, which also lacks the completion sentinel and energy marker)
yields an errored result with the energy left unset. -/
theorem claim_C3_witness :
    scanAll { symmetry := false, pstress := none, pyx := none }
        [] (initRState [[PFloat.fin 0, .fin 0, .fin 0]] [] .init)
      = (initRState [[PFloat.fin 0, .fin 0, .fin 0]] [] .init, none, none, false)
    ∧ ((read { symmetry := false, pstress := none, pyx := none }
        (initRState [[PFloat.fin 0, .fin 0, .fin 0]] [] .init) []).error = true
      ∧ (read { symmetry := false, pstress := none, pyx := none }
        (initRState [[PFloat.fin 0, .fin 0, .fin 0]] [] .init) []).energy = none) :=
  ⟨by decide,
   (claim_C3 { symmetry := false, pstress := none, pyx := none }
     (initRState [[PFloat.fin 0, .fin 0, .fin 0]] [] .init) []
     (initRState [[PFloat.fin 0, .fin 0, .fin 0]] [] .init) none none false
     (by decide)).1 rfl rfl⟩

/-- Claim C4: any exception raised while scanning the output lines is
caught inside the parser — the run is marked errored, the energy is
discarded, and (the embedding being a total function) nothing propagates
to the caller. -/
theorem claim_C4 (cfg : RCfg) (st0 : RState) (lines : List (List Char))
    (st1 : RState) (lp lv : Option LatVal)
    (h : scanAll cfg lines st0 = (st1, lp, lv, true)) :
    (read cfg st0 lines).error = true ∧ (read cfg st0 lines).energy = none := by
  rcases lp with _ | L <;> rcases lv with _ | M <;> simp [read, h]

/-- Witness for claim C4: a report consisting of a lone stress-tensor
header makes the scan raise (`lines[i+j+3]` is out of range) and `read`
returns an errored, energy-free result. -/
theorem claim_C4_witness :
    scanAll { symmetry := false, pstress := none, pyx := none }
        [strL "  Final stress tensor components"]
        (initRState [[PFloat.fin 0, .fin 0, .fin 0]] [] .init)
      = (initRState [[PFloat.fin 0, .fin 0, .fin 0]] [] .init, none, none, true)
    ∧ ((read { symmetry := false, pstress := none, pyx := none }
        (initRState [[PFloat.fin 0, .fin 0, .fin 0]] [] .init)
        [strL "  Final stress tensor components"]).error = true
      ∧ (read { symmetry := false, pstress := none, pyx := none }
        (initRState [[PFloat.fin 0, .fin 0, .fin 0]] [] .init)
        [strL "  Final stress tensor components"]).energy = none) :=
  ⟨by decide,
   claim_C4 { symmetry := false, pstress := none, pyx := none }
     (initRState [[PFloat.fin 0, .fin 0, .fin 0]] [] .init)
     [strL "  Final stress tensor components"]
     (initRState [[PFloat.fin 0, .fin 0, .fin 0]] [] .init) none none (by decide)⟩

/-- Claim C5: whenever the scan recovered a lattice from the
`Non-primitive lattice parameters` block, the lattice stored in the result
is that one — also when a `Final Cartesian lattice vectors` lattice was
recovered as well. -/
theorem claim_C5 (cfg : RCfg) (st0 : RState) (lines : List (List Char))
    (st1 : RState) (L : LatVal) (lv : Option LatVal) (raised : Bool)
    (h : scanAll cfg lines st0 = (st1, some L, lv, raised)) :
    (read cfg st0 lines).lattice = L := by
  cases raised <;> rcases h1 : st1.energy with _ | e <;> simp [read, h, h1, pIsNan]
  split <;> rfl

/-- Witness for claim C5: a report containing both a non-primitive
lattice-parameters block and a Cartesian lattice-vectors block — in either
order — resolves to the lattice built from the parameters. -/
theorem claim_C5_witness :
    scanAll { symmetry := false, pstress := none, pyx := none }
        [strL "  Non-primitive lattice parameters :",
         strL "",
         strL "  a    =     4.000000  b   =     5.000000  c    =     6.000000",
         strL "  alpha=   90.000000  beta=   90.000000  gamma=   90.000000",
         strL "  Final Cartesian lattice vectors (Angstroms) :",
         strL "",
         strL "        4.000000    0.000000    0.000000",
         strL "        0.000000    5.000000    0.000000",
         strL "        0.000000    0.000000    6.000000"]
        (initRState [[PFloat.fin 0, .fin 0, .fin 0]] [] .init)
      = (initRState [[PFloat.fin 0, .fin 0, .fin 0]] [] .init,
         some (.fromPara (.fin 4) (.fin 5) (.fin 6) (.fin 90) (.fin 90) (.fin 90)
           (strL "triclinic")),
         some (.fromMatrix [[.fin 4, .fin 0, .fin 0], [.fin 0, .fin 5, .fin 0],
           [.fin 0, .fin 0, .fin 6]] (strL "triclinic")),
         false)
    ∧ (read { symmetry := false, pstress := none, pyx := none }
        (initRState [[PFloat.fin 0, .fin 0, .fin 0]] [] .init)
        [strL "  Non-primitive lattice parameters :",
         strL "",
         strL "  a    =     4.000000  b   =     5.000000  c    =     6.000000",
         strL "  alpha=   90.000000  beta=   90.000000  gamma=   90.000000",
         strL "  Final Cartesian lattice vectors (Angstroms) :",
         strL "",
         strL "        4.000000    0.000000    0.000000",
         strL "        0.000000    5.000000    0.000000",
         strL "        0.000000    0.000000    6.000000"]).lattice
      = .fromPara (.fin 4) (.fin 5) (.fin 6) (.fin 90) (.fin 90) (.fin 90) (strL "triclinic")
    ∧ (read { symmetry := false, pstress := none, pyx := none }
        (initRState [[PFloat.fin 0, .fin 0, .fin 0]] [] .init)
        [strL "  Final Cartesian lattice vectors (Angstroms) :",
         strL "",
         strL "        4.000000    0.000000    0.000000",
         strL "        0.000000    5.000000    0.000000",
         strL "        0.000000    0.000000    6.000000",
         strL "  Non-primitive lattice parameters :",
         strL "",
         strL "  a    =     4.000000  b   =     5.000000  c    =     6.000000",
         strL "  alpha=   90.000000  beta=   90.000000  gamma=   90.000000"]).lattice
      = .fromPara (.fin 4) (.fin 5) (.fin 6) (.fin 90) (.fin 90) (.fin 90) (strL "triclinic") :=
  ⟨by decide,
   claim_C5 { symmetry := false, pstress := none, pyx := none }
     (initRState [[PFloat.fin 0, .fin 0, .fin 0]] [] .init)
     [strL "  Non-primitive lattice parameters :",
      strL "",
      strL "  a    =     4.000000  b   =     5.000000  c    =     6.000000",
      strL "  alpha=   90.000000  beta=   90.000000  gamma=   90.000000",
      strL "  Final Cartesian lattice vectors (Angstroms) :",
      strL "",
      strL "        4.000000    0.000000    0.000000",
      strL "        0.000000    5.000000    0.000000",
      strL "        0.000000    0.000000    6.000000"]
     (initRState [[PFloat.fin 0, .fin 0, .fin 0]] [] .init)
     (.fromPara (.fin 4) (.fin 5) (.fin 6) (.fin 90) (.fin 90) (.fin 90) (strL "triclinic"))
     (some (.fromMatrix [[.fin 4, .fin 0, .fin 0], [.fin 0, .fin 5, .fin 0],
       [.fin 0, .fin 0, .fin 6]] (strL "triclinic")))
     false (by decide),
   claim_C5 { symmetry := false, pstress := none, pyx := none }
     (initRState [[PFloat.fin 0, .fin 0, .fin 0]] [] .init)
     [strL "  Final Cartesian lattice vectors (Angstroms) :",
      strL "",
      strL "        4.000000    0.000000    0.000000",
      strL "        0.000000    5.000000    0.000000",
      strL "        0.000000    0.000000    6.000000",
      strL "  Non-primitive lattice parameters :",
      strL "",
      strL "  a    =     4.000000  b   =     5.000000  c    =     6.000000",
      strL "  alpha=   90.000000  beta=   90.000000  gamma=   90.000000"]
     (initRState [[PFloat.fin 0, .fin 0, .fin 0]] [] .init)
     (.fromPara (.fin 4) (.fin 5) (.fin 6) (.fin 90) (.fin 90) (.fin 90) (strL "triclinic"))
     (some (.fromMatrix [[.fin 4, .fin 0, .fin 0], [.fin 0, .fin 5, .fin 0],
       [.fin 0, .fin 0, .fin 6]] (strL "triclinic")))
     false (by decide)⟩

/-- Claim C6: in the multi-pass driver with degeneracy-avoidance enabled,
when a pass succeeds with energy magnitude below the `1e-8` threshold, the
structure's lattice matrix is uniformly scaled by `0.8` (= 4/5) before the
next pass and the current pass is not re-run: for the sequence
`[conp, conp]`, the driver continues from the scaled structure on the
remaining single-pass list. -/
theorem claim_C6 (step : DStruc → List Char → Option (DStruc × ℚ × ℚ))
    (s0 s1 : DStruc) (e t1 : ℚ)
    (h : step s0 (strL "conp") = some (s1, e, t1))
    (he : |e| < nearZeroThresh) :
    optimize step true s0 [strL "conp", strL "conp"]
      = optimizeGo step true (setMatrix s1 (scaleMatrix s1.lattice.matrix 4 5))
          [strL "conp"] (0 + t1) (some e)
    ∧ (setMatrix s1 (scaleMatrix s1.lattice.matrix 4 5)).lattice.matrix
      = scaleMatrix s1.lattice.matrix 4 5 := by
  constructor
  · rw [optimize, optimizeGo]
    simp only [h]
    rw [if_pos ⟨trivial, he⟩]
  · rfl

/-- Witness for claim C6: a pass oracle that succeeds with energy `0.0`
makes pass 2 start from the pass-1 lattice matrix scaled by `0.8 = 4/5`. -/
theorem claim_C6_witness :
    ((fun (s : DStruc) (_ : List Char) => some (s, (0 : ℚ), (0 : ℚ)))
        { lattice := { matrix := [[1]] } } (strL "conp")
      = some ({ lattice := { matrix := [[1]] } }, (0 : ℚ), (0 : ℚ))
      ∧ |(0 : ℚ)| < nearZeroThresh)
    ∧ optimize (fun (s : DStruc) (_ : List Char) => some (s, (0 : ℚ), (0 : ℚ))) true
        { lattice := { matrix := [[1]] } } [strL "conp", strL "conp"]
      = optimizeGo (fun (s : DStruc) (_ : List Char) => some (s, (0 : ℚ), (0 : ℚ))) true
          (setMatrix { lattice := { matrix := [[1]] } }
            (scaleMatrix (DStruc.lattice { lattice := { matrix := [[1]] } }).matrix 4 5))
          [strL "conp"] (0 + 0) (some 0)
    ∧ scaleMatrix [[(1 : ℚ)]] 4 5 = [[mkRat 4 5]] :=
  ⟨⟨rfl, by decide⟩,
   (claim_C6 (fun s _ => some (s, 0, 0)) { lattice := { matrix := [[1]] } }
     { lattice := { matrix := [[1]] } } 0 0 rfl (by decide)).1,
   by decide⟩

/-- Claim C7: in the multi-pass driver, a pass that reports an error makes
the driver return failure immediately — `(None, None, 0, True)` — without
running the remaining passes (the result does not depend on them) and
without retrying. -/
theorem claim_C7 (step : DStruc → List Char → Option (DStruc × ℚ × ℚ))
    (adjust : Bool) (s0 : DStruc) (o : List Char) (rest : List (List Char))
    (h : step s0 o = none) :
    optimize step adjust s0 (o :: rest) = .failure := by
  simp [optimize, optimizeGo, h]

/-- Witness for claim C7: an always-failing pass oracle aborts the
two-pass sequence at once. -/
theorem claim_C7_witness :
    ((fun (_ : DStruc) (_ : List Char) => (none : Option (DStruc × ℚ × ℚ)))
        { lattice := { matrix := [[1]] } } (strL "conp") = none)
    ∧ optimize (fun _ _ => none) false { lattice := { matrix := [[1]] } }
        [strL "conp", strL "conv"] = .failure :=
  ⟨rfl,
   claim_C7 (fun _ _ => none) false { lattice := { matrix := [[1]] } }
     (strL "conp") [strL "conv"] rfl⟩

/-- Claim C8: a single-point run's input starts with the
`grad conp stress ` directive chunk and its trailer carries no iteration-cap
(`maxcycle`) line; and a synthetic 4-atom output with a plain
lattice-energy marker of value `-123.456000` and no pressure parses to
energy `-123.456` and per-atom energy `-30.864`. -/
theorem claim_C8 (cfg : WCfg) (ws : WStruc)
    (hopt : cfg.opt = strL "single") :
    (writeChunks cfg ws).head? = some (strL "grad conp stress ")
    ∧ trailerChunks cfg
      = [strL "library " ++ cfg.ff ++ strL "\n", strL "ewald 10.0\n"]
        ++ (match cfg.pstress with
            | some p => [strL "pressure " ++ formatFixed 6 3 p ++ strL "\n"]
            | none => [])
        ++ (match cfg.dump with
            | some d => [strL "output cif " ++ d ++ strL "\n"]
            | none => [])
    ∧ (read { symmetry := false, pstress := none, pyx := none }
        (initRState [[PFloat.fin 0, .fin 0, .fin 0], [.fin 0, .fin 0, .fin 0],
          [.fin 0, .fin 0, .fin 0], [.fin 0, .fin 0, .fin 0]] [] .init)
        [strL "  Total lattice energy       =        -123.456000 eV",
         strL "  Final Cartesian lattice vectors (Angstroms) :",
         strL "",
         strL "        4.000000    0.000000    0.000000",
         strL "        0.000000    4.000000    0.000000",
         strL "        0.000000    0.000000    4.000000"]).energy
      = some (.fin (-123.456))
    ∧ (read { symmetry := false, pstress := none, pyx := none }
        (initRState [[PFloat.fin 0, .fin 0, .fin 0], [.fin 0, .fin 0, .fin 0],
          [.fin 0, .fin 0, .fin 0], [.fin 0, .fin 0, .fin 0]] [] .init)
        [strL "  Total lattice energy       =        -123.456000 eV",
         strL "  Final Cartesian lattice vectors (Angstroms) :",
         strL "",
         strL "        4.000000    0.000000    0.000000",
         strL "        0.000000    4.000000    0.000000",
         strL "        0.000000    0.000000    4.000000"]).energy_per_atom
      = some (.fin (-30.864)) := by
  have h1 : strL "single" ≠ strL "conv" := by decide
  refine ⟨?_, ?_, ?_, ?_⟩
  · simp [writeChunks, directiveChunks, hopt, h1]
  · simp [trailerChunks, hopt]
  · have hv : (read { symmetry := false, pstress := none, pyx := none }
        (initRState [[PFloat.fin 0, .fin 0, .fin 0], [.fin 0, .fin 0, .fin 0],
          [.fin 0, .fin 0, .fin 0], [.fin 0, .fin 0, .fin 0]] [] .init)
        [strL "  Total lattice energy       =        -123.456000 eV",
         strL "  Final Cartesian lattice vectors (Angstroms) :",
         strL "",
         strL "        4.000000    0.000000    0.000000",
         strL "        0.000000    4.000000    0.000000",
         strL "        0.000000    0.000000    4.000000"]).energy
      = some (.fin (mkRat (-15432) 125)) := by decide
    rw [hv]
    simp only [Option.some.injEq, PFloat.fin.injEq, Rat.mkRat_eq_div]
    norm_num
  · have hv : (read { symmetry := false, pstress := none, pyx := none }
        (initRState [[PFloat.fin 0, .fin 0, .fin 0], [.fin 0, .fin 0, .fin 0],
          [.fin 0, .fin 0, .fin 0], [.fin 0, .fin 0, .fin 0]] [] .init)
        [strL "  Total lattice energy       =        -123.456000 eV",
         strL "  Final Cartesian lattice vectors (Angstroms) :",
         strL "",
         strL "        4.000000    0.000000    0.000000",
         strL "        0.000000    4.000000    0.000000",
         strL "        0.000000    0.000000    4.000000"]).energy_per_atom
      = some (.fin (mkRat (-3858) 125)) := by decide
    rw [hv]
    simp only [Option.some.injEq, PFloat.fin.injEq, Rat.mkRat_eq_div]
    norm_num

/-- Witness for claim C8 at the spec's scenario: forcefield `tersoff.lib`,
single-point mode, a 4-atom structure.  The first chunk is the
`grad conp stress ` directive and the evaluated trailer is exactly the
library and Ewald lines — no `maxcycle` line. -/
theorem claim_C8_witness :
    ({ opt := strL "single", symmetry := false, ff := strL "tersoff.lib", steps := 1000, pstress := none, dump := none, labels := none } : WCfg).opt = strL "single"
    ∧ (writeChunks
        { opt := strL "single", symmetry := false, ff := strL "tersoff.lib", steps := 1000, pstress := none, dump := none, labels := none }
        { a := 4, b := 4, c := 4, alpha := 90, beta := 90, gamma := 90, frac_coords := [(0, 0, 0), (0, 0, 0), (0, 0, 0), (0, 0, 0)], sites := [strL "C", strL "C", strL "C", strL "C"], pyx := none }).head?
      = some (strL "grad conp stress ")
    ∧ trailerChunks
        { opt := strL "single", symmetry := false, ff := strL "tersoff.lib", steps := 1000, pstress := none, dump := none, labels := none }
      = [strL "library tersoff.lib\n", strL "ewald 10.0\n"] :=
  ⟨by decide,
   (claim_C8
     { opt := strL "single", symmetry := false, ff := strL "tersoff.lib", steps := 1000, pstress := none, dump := none, labels := none }
     { a := 4, b := 4, c := 4, alpha := 90, beta := 90, gamma := 90, frac_coords := [(0, 0, 0), (0, 0, 0), (0, 0, 0), (0, 0, 0)], sites := [strL "C", strL "C", strL "C", strL "C"], pyx := none }
     (by decide)).1,
   by decide⟩

/-- Claim C9 (amended): cleanup deletes the input file, the output file and
the optional dump file unconditionally and in that order; deleting an
already-absent file raises a missing-file error that propagates to the
caller (deletion is not idempotent), and when all the files are present
they are removed. -/
theorem claim_C9 (c : CleanCfg) (fs : List (List Char)) :
    (c.input ∉ fs → clean c fs = .error ())
    ∧ (c.input ∈ fs → c.output ∉ fs.erase c.input → clean c fs = .error ())
    ∧ (c.input ∈ fs → c.output ∈ fs.erase c.input → c.dump = none →
        clean c fs = .ok ((fs.erase c.input).erase c.output))
    ∧ (∀ d, c.input ∈ fs → c.output ∈ fs.erase c.input → c.dump = some d →
        d ∉ (fs.erase c.input).erase c.output → clean c fs = .error ())
    ∧ (∀ d, c.input ∈ fs → c.output ∈ fs.erase c.input → c.dump = some d →
        d ∈ (fs.erase c.input).erase c.output →
        clean c fs = .ok (((fs.erase c.input).erase c.output).erase d)) := by
  refine ⟨?_, ?_, ?_, ?_, ?_⟩
  · intro h
    simp [clean, osRemove, bind, Except.bind, h]
  · intro h1 h2
    simp [clean, osRemove, bind, Except.bind, h1, h2]
  · intro h1 h2 h3
    simp [clean, osRemove, bind, Except.bind, h1, h2, h3]
  · intro d h1 h2 h3 h4
    simp [clean, osRemove, bind, Except.bind, h1, h2, h3, h4]
  · intro d h1 h2 h3 h4
    simp [clean, osRemove, bind, Except.bind, h1, h2, h3, h4]

/-- Counterexample to claim C9 as stated: deleting when the input file is
already absent raises (`os.remove` has no missing-file handling in
`clean`), rather than being ignored. -/
theorem claim_C9_counterexample :
    clean { input := strL "tmp/_gulp.in", output := strL "tmp/_gulp.log", dump := none } []
      = .error () := by decide

/-- Witness for claim C9: with both transient files present and no dump
configured, cleanup removes exactly those two files. -/
theorem claim_C9_witness :
    (strL "a" ∈ [strL "a", strL "b"]
      ∧ strL "b" ∈ ([strL "a", strL "b"].erase (strL "a")))
    ∧ clean { input := strL "a", output := strL "b", dump := none } [strL "a", strL "b"]
      = .ok (([strL "a", strL "b"].erase (strL "a")).erase (strL "b")) :=
  ⟨⟨by decide, by decide⟩,
   (claim_C9 { input := strL "a", output := strL "b", dump := none }
     [strL "a", strL "b"]).2.2.1 (by decide) (by decide) rfl⟩

/-- Claim C10: with an external pressure configured as exactly `0`, the
writer still emits a pressure directive line (`pressure  0.000`), but the
parser selects the plain lattice-energy marker; the enthalpy marker is
selected only when the configured pressure is present and nonzero. -/
theorem claim_C10 (w : WCfg) (cfg cfg2 : RCfg) (p : ℚ)
    (hw : w.pstress = some 0)
    (h1 : cfg.symmetry = false) (h2 : cfg.pstress = some 0)
    (h3 : cfg2.symmetry = false) (h4 : cfg2.pstress = some p) (hp : p ≠ 0) :
    (strL "pressure " ++ formatFixed 6 3 0 ++ strL "\n") ∈ trailerChunks w
    ∧ formatFixed 6 3 0 = strL " 0.000"
    ∧ selectMarker cfg = .ok plainMarker
    ∧ selectMarker cfg2 = .ok enthalpyMarker := by
  refine ⟨?_, by decide, ?_, ?_⟩
  · simp [trailerChunks, hw]
  · rw [selectMarker]
    simp [h1, h2, pstressZero]
  · rw [selectMarker]
    simp [h3, h4, pstressZero, hp]

/-- Witness for claim C10: pressure `0` emits `pressure  0.000` in the
trailer yet selects the plain marker, while pressure `1` selects the
enthalpy marker. -/
theorem claim_C10_witness :
    (({ opt := strL "conp", symmetry := false, ff := strL "reax", steps := 1000, pstress := some 0, dump := none, labels := none } : WCfg).pstress = some 0
      ∧ (1 : ℚ) ≠ 0)
    ∧ ((strL "pressure " ++ formatFixed 6 3 0 ++ strL "\n") ∈ trailerChunks
        { opt := strL "conp", symmetry := false, ff := strL "reax", steps := 1000, pstress := some 0, dump := none, labels := none }
      ∧ formatFixed 6 3 0 = strL " 0.000"
      ∧ selectMarker { symmetry := false, pstress := some 0, pyx := none } = .ok plainMarker
      ∧ selectMarker { symmetry := false, pstress := some 1, pyx := none }
          = .ok enthalpyMarker) :=
  ⟨⟨rfl, by decide⟩,
   claim_C10
     { opt := strL "conp", symmetry := false, ff := strL "reax", steps := 1000, pstress := some 0, dump := none, labels := none }
     { symmetry := false, pstress := some 0, pyx := none }
     { symmetry := false, pstress := some 1, pyx := none } 1
     rfl rfl rfl rfl rfl (by decide)⟩

end Gulp
